import Mathlib

/-!
Verification development for the nuclear-plant maintenance frontend and its
Risk & Compliance Decision Engine.  The data model and the presentation-layer
helpers are embedded from the TypeScript sources
(`src/frontend/src/lib/api.ts`, `src/frontend/src/lib/utils.ts`,
`src/frontend/src/components/predictive-maintenance.tsx`,
`src/frontend/src/components/compliance-checker.tsx`).  The backend decision
engine (Compliance Matcher, batch endpoints, Maintenance Advisor) is not part
of the repository's sources; those operations are modelled from the spec and
are marked as such in their doc comments.  Numeric readings are embedded as
rationals, JS strings as Lean strings, optional fields as `Option`, and
`Record<string, number>` as an association list.
-/

namespace Espada

/-- From `src/frontend/src/lib/api.ts`: `interface MaintenanceAction`. -/
structure MaintenanceAction where
  id : String
  description : String
  component : String
  proposed_action : String
  timestamp : String
deriving Repr, DecidableEq

/-- From `src/frontend/src/lib/api.ts`: `interface MaintenanceSuggestion`.
The `instructions` field is a single string, exactly as in the source. -/
structure MaintenanceSuggestion where
  severity : String
  action : String
  reason : String
  instructions : String
deriving Repr, DecidableEq

/-- From `src/frontend/src/lib/api.ts`: `interface PredictionResult`.
`shap_values : Record<string, number>` is embedded as an association list in
insertion order, which is the order `Object.entries` yields. -/
structure PredictionResult where
  product_id : Option String
  failure_probability : ℚ
  criticality_rank : Option Int
  maintenance_suggestion : MaintenanceSuggestion
  shap_values : List (String × ℚ)
deriving Repr, DecidableEq

/-- From `src/frontend/src/lib/api.ts`: the element type of
`ComplianceResult.compliance_details`. -/
structure ComplianceDetail where
  rule_id : String
  regulation_text : String
  similarity_score : ℚ
  compliant : Bool
  source : String
deriving Repr, DecidableEq

/-- From `src/frontend/src/lib/api.ts`: the `action_details` field of
`interface ComplianceReport`. -/
structure ReportActionDetails where
  id : String
  component : String
  proposed_action : String
  description : String
deriving Repr, DecidableEq

/-- From `src/frontend/src/lib/api.ts`: the element type of
`ComplianceReport.details`. -/
structure ReportDetail where
  rule_id : String
  source : String
  regulation : String
  similarity_score : ℚ
  status : String
deriving Repr, DecidableEq

/-- From `src/frontend/src/lib/api.ts`: `interface ComplianceReport`. -/
structure ComplianceReport where
  timestamp : String
  action_details : ReportActionDetails
  compliance_status : String
  warning : Option String
  details : List ReportDetail
  recommendations : List String
deriving Repr, DecidableEq

/-- From `src/frontend/src/lib/api.ts`: `interface ComplianceResult`. -/
structure ComplianceResult where
  action_id : String
  overall_compliant : Bool
  compliance_details : List ComplianceDetail
  warning : Option String
  report : Option ComplianceReport
  consolidated_report : Option String
deriving Repr, DecidableEq

/-- From spec §3: a rule-corpus entry (`RuleEntry`); the embedding/signature
used for similarity comparison stays abstract, so only the textual fields are
carried. -/
structure RuleEntry where
  rule_id : String
  source : String
  regulation_text : String
deriving Repr, DecidableEq

/-! ## Presentation helpers from `src/frontend/src/lib/utils.ts` -/

/-- From `src/frontend/src/lib/utils.ts` lines 12–16:
`getSeverityColor(probability)` returns `"text-red-600"` when
`probability > 0.9`, `"text-orange-500"` when `probability > 0.7`, and
`"text-green-600"` otherwise. -/
def getSeverityColor (probability : ℚ) : String :=
  if 9/10 < probability then "text-red-600"
  else if 7/10 < probability then "text-orange-500"
  else "text-green-600"

/-! ## `src/frontend/src/components/predictive-maintenance.tsx` -/

/-- From `predictive-maintenance.tsx` lines 48–52: `RISK_THRESHOLDS.HIGH`. -/
def RISK_THRESHOLDS_HIGH : ℚ := 7/10

/-- From `predictive-maintenance.tsx` lines 48–52: `RISK_THRESHOLDS.MEDIUM`. -/
def RISK_THRESHOLDS_MEDIUM : ℚ := 3/10

/-- The discrete severity tiers of the Maintenance Advisor (spec §4.2),
ordered Low < Medium < High. -/
inductive Severity where
  | Low : Severity
  | Medium : Severity
  | High : Severity
deriving Repr, DecidableEq

/-- Numeric rank realizing the ordering Low < Medium < High. -/
def Severity.rank : Severity → Nat
  | .Low => 0
  | .Medium => 1
  | .High => 2

/-- Modelled from the spec: the Maintenance Advisor's `advise` (spec §4.2) is
backend code absent from this repository's sources.  Its severity tiers are
fixed thresholds on `failure_probability`: `probability > 0.7 → High`,
`0.3 < probability ≤ 0.7 → Medium`, `probability ≤ 0.3 → Low`. -/
def severityOfProb (p : ℚ) : Severity :=
  if RISK_THRESHOLDS_HIGH < p then .High
  else if RISK_THRESHOLDS_MEDIUM < p then .Medium
  else .Low

/-- The `type` argument of `getRiskColor` (`"bg" | "text"`). -/
inductive ColorKind where
  | bg : ColorKind
  | text : ColorKind
deriving Repr, DecidableEq

/-- From `predictive-maintenance.tsx` lines 544–553: `getRiskColor(value, type)`
returns the red classes above `RISK_THRESHOLDS.HIGH`, the accent classes above
`RISK_THRESHOLDS.MEDIUM`, and the secondary classes otherwise. -/
def getRiskColor (value : ℚ) (kind : ColorKind) : String :=
  if RISK_THRESHOLDS_HIGH < value then
    match kind with
    | .bg => "bg-red-500"
    | .text => "text-red-700"
  else if RISK_THRESHOLDS_MEDIUM < value then
    match kind with
    | .bg => "bg-brand-accent"
    | .text => "text-brand-accent"
  else
    match kind with
    | .bg => "bg-brand-secondary"
    | .text => "text-brand-secondary"

/-- From `predictive-maintenance.tsx` lines 233–240 (`RiskDistributionCard`):
the "Low Risk" count filters `failure_probability <= RISK_THRESHOLDS.MEDIUM`. -/
def lowRiskCount (results : List PredictionResult) : Nat :=
  (results.filter (fun r => r.failure_probability ≤ RISK_THRESHOLDS_MEDIUM)).length

/-- From `predictive-maintenance.tsx` lines 241–249 (`RiskDistributionCard`):
the "Medium Risk" count filters
`RISK_THRESHOLDS.MEDIUM < failure_probability <= RISK_THRESHOLDS.HIGH`. -/
def mediumRiskCount (results : List PredictionResult) : Nat :=
  (results.filter (fun r =>
    RISK_THRESHOLDS_MEDIUM < r.failure_probability ∧
      r.failure_probability ≤ RISK_THRESHOLDS_HIGH)).length

/-- From `predictive-maintenance.tsx` lines 250–255 (`RiskDistributionCard`):
the "High Risk" count filters `failure_probability > RISK_THRESHOLDS.HIGH`. -/
def highRiskCount (results : List PredictionResult) : Nat :=
  (results.filter (fun r => RISK_THRESHOLDS_HIGH < r.failure_probability)).length

/-- The comparator used at `predictive-maintenance.tsx` line 749:
`.sort(([, a], [, b]) => Math.abs(b) - Math.abs(a))`, i.e. descending absolute
value of the attribution. -/
def attrDescAbs (a b : String × ℚ) : Prop := |b.2| ≤ |a.2|

instance : DecidableRel attrDescAbs := fun a b =>
  inferInstanceAs (Decidable (|b.2| ≤ |a.2|))

instance : IsTotal (String × ℚ) attrDescAbs :=
  ⟨fun a b => le_total |b.2| |a.2|⟩

instance : IsTrans (String × ℚ) attrDescAbs :=
  ⟨fun _ _ _ hab hbc => le_trans hbc hab⟩

/-- From `predictive-maintenance.tsx` lines 746–775: the Contributing Factors
list renders `Object.entries(result.shap_values)` sorted by descending
absolute value and truncated to the first five entries (`.slice(0, 5)`). -/
def topContributingFactors (shapValues : List (String × ℚ)) : List (String × ℚ) :=
  (List.insertionSort attrDescAbs shapValues).take 5

/-- From `predictive-maintenance.tsx` lines 839–862: the Maintenance
Instructions panel splits `maintenance_suggestion.instructions` on `"\n"` and
renders segment `idx` with the number `idx + 1`. -/
def instructionSteps (m : MaintenanceSuggestion) : List (Nat × String) :=
  (m.instructions.splitOn "\n").enum.map (fun p => (p.1 + 1, p.2))

/-! ## `src/frontend/src/components/compliance-checker.tsx` -/

/-- Embedding of `String.prototype.startsWith`: the pattern's character
sequence is a prefix of the string's character sequence. -/
def strStartsWith (s pat : String) : Bool :=
  pat.data.isPrefixOf s.data

/-- The three icons the Recommendations panel can attach to a recommendation
string (`CheckCircle`, `AlertTriangle`, `Info` from lucide-react). -/
inductive RecIcon where
  | checkCircle : RecIcon
  | alertTriangle : RecIcon
  | info : RecIcon
deriving Repr, DecidableEq

/-- From `compliance-checker.tsx` lines 376–394: the Recommendations panel
selects `CheckCircle` when the recommendation starts with `"✓"`,
`AlertTriangle` when it starts with `"⚠"`, and `Info` otherwise. -/
def iconForRecommendation (recommendation : String) : RecIcon :=
  if strStartsWith recommendation "✓" then .checkCircle
  else if strStartsWith recommendation "⚠" then .alertTriangle
  else .info

/-- From `compliance-checker.tsx` lines 401–414: the Consolidated Report panel
renders `results[0]?.consolidated_report || "No report available"`.  JS
optional chaining yields `undefined` for an empty list or an absent field, and
`||` falls through to the fallback on any falsy value, which for strings also
includes `""`. -/
def consolidatedReportDisplay (results : List ComplianceResult) : String :=
  match results.head? with
  | none => "No report available"
  | some r =>
    match r.consolidated_report with
    | none => "No report available"
    | some s => if s = "" then "No report available" else s

/-! ## The backend Risk & Compliance Decision Engine, modelled from the spec

The engine itself (`evaluate`, `advise`, the batch endpoints) is backend code
that is not among this repository's sources; only its data contracts
(`api.ts`) and the README describing the endpoints are.  The operations below
are therefore modelled from spec §4.2, §4.4, §5 and §6. -/

/-- The classification of a generated recommendation (spec §4.4): a compliant
call-out, a non-compliant warning, or an informational note. -/
inductive RecClass where
  | compliantNote : RecClass
  | nonCompliantWarn : RecClass
  | informational : RecClass
deriving Repr, DecidableEq

/-- Modelled from the spec: recommendations are "prefixed with a fixed symbol
per severity class (a checkmark-equivalent for compliant call-outs, a
warning-equivalent for non-compliant, informational otherwise)" (spec §4.4). -/
def recommendationText : RecClass → String → String
  | .compliantNote, msg => "✓ " ++ msg
  | .nonCompliantWarn, msg => "⚠ " ++ msg
  | .informational, msg => "ℹ " ++ msg

/-- The icon that a recommendation of each class is meant to carry. -/
def iconOfClass : RecClass → RecIcon
  | .compliantNote => .checkCircle
  | .nonCompliantWarn => .alertTriangle
  | .informational => .info

/-- Modelled from the spec: per-detail recommendations of the Compliance
Matcher (spec §4.4), generated from the details with the fixed class prefix. -/
def recommendationFor (d : ComplianceDetail) : String :=
  if d.compliant then
    recommendationText .compliantNote ("Action is consistent with " ++ d.rule_id)
  else
    recommendationText .nonCompliantWarn ("Review the action against " ++ d.rule_id)

/-- Modelled from the spec: the recommendation list of a compliance report
(spec §4.4), one recommendation per matched rule. -/
def genRecommendations (details : List ComplianceDetail) : List String :=
  details.map recommendationFor

/-- Modelled from the spec: the per-action structured report (spec §4.5),
echoing action details, overall status and the ranked detail list. -/
def buildReport (action : MaintenanceAction) (details : List ComplianceDetail)
    (overall : Bool) (warning : Option String) : ComplianceReport :=
  { timestamp := action.timestamp
    action_details :=
      { id := action.id
        component := action.component
        proposed_action := action.proposed_action
        description := action.description }
    compliance_status := if overall then "COMPLIANT" else "NON-COMPLIANT"
    warning := warning
    details := details.map (fun d =>
      { rule_id := d.rule_id
        source := d.source
        regulation := d.regulation_text
        similarity_score := d.similarity_score
        status := if d.compliant then "COMPLIANT" else "NON-COMPLIANT" })
    recommendations := genRecommendations details }

/-- Modelled from the spec: step (1) of `evaluate` (spec §4.4), building a
comparison text from the action's description and proposed_action. -/
def comparisonText (action : MaintenanceAction) : String :=
  action.description ++ " " ++ action.proposed_action

/-- Modelled from the spec: the Compliance Matcher's `evaluate` (spec §4.4) is
backend code absent from this repository's sources.  `retrieve` abstracts the
Rule Corpus Index lookup (spec §4.3); it returns the top-matching rules with
their similarity scores.  Steps: build the comparison text; retrieve
candidates; classify each candidate `compliant = similarity_score ≥
complianceThreshold`; `overall_compliant = true` iff all details are
compliant, except that when no rule meets `minConfidence` the result carries
the warning "No closely matching regulation found" and `overall_compliant` is
not set to true by default (spec §4.4 step 5, §7 "conservative
non-compliant-leaning result"). -/
def evaluate (retrieve : String → List (RuleEntry × ℚ))
    (complianceThreshold minConfidence : ℚ)
    (action : MaintenanceAction) : ComplianceResult :=
  let candidates := retrieve (comparisonText action)
  let details : List ComplianceDetail := candidates.map (fun c =>
    { rule_id := c.1.rule_id
      regulation_text := c.1.regulation_text
      similarity_score := c.2
      compliant := decide (complianceThreshold ≤ c.2)
      source := c.1.source })
  let noConfident := details.all (fun d => decide (d.similarity_score < minConfidence))
  let overall := if noConfident then false else details.all (fun d => d.compliant)
  let warning := if noConfident then some "No closely matching regulation found" else none
  { action_id := action.id
    overall_compliant := overall
    compliance_details := details
    warning := warning
    report := some (buildReport action details overall warning)
    consolidated_report := none }

/-- Modelled from the spec: the `check-compliance` endpoint (spec §6) maps
`evaluate` over the submitted actions, one `ComplianceResult` per input action
in submission order. -/
def checkCompliance (retrieve : String → List (RuleEntry × ℚ))
    (complianceThreshold minConfidence : ℚ)
    (actions : List MaintenanceAction) : List ComplianceResult :=
  actions.map (evaluate retrieve complianceThreshold minConfidence)

/-- Modelled from the spec: the `predict-file` endpoint (spec §6) scores each
row of the uploaded table independently and returns one result per row in row
order; the per-row scorer is abstracted as a function argument. -/
def predictFileBatch {Row : Type} (scoreRow : Row → PredictionResult)
    (rows : List Row) : List PredictionResult :=
  rows.map scoreRow

/-- The background color the predictive-maintenance component associates with
each severity tier (red / brand-accent / brand-secondary). -/
def severityBgColor : Severity → String
  | .High => "bg-red-500"
  | .Medium => "bg-brand-accent"
  | .Low => "bg-brand-secondary"

/-- The text color the predictive-maintenance component associates with each
severity tier. -/
def severityTextColor : Severity → String
  | .High => "text-red-700"
  | .Medium => "text-brand-accent"
  | .Low => "text-brand-secondary"

/-! ## Concrete inputs used by witnesses and counterexamples -/

/-- A concrete rule entry used by the witness of the overall-compliance claim. -/
def ruleC1 : RuleEntry :=
  { rule_id := "R1", source := "NRC", regulation_text := "rt" }

/-- A concrete action used by the witness of the overall-compliance claim. -/
def actionC1 : MaintenanceAction :=
  { id := "A1", description := "d", component := "c",
    proposed_action := "pa", timestamp := "ts" }

/-- A concrete retrieval with one rule of similarity 9/10, used by the witness
of the overall-compliance claim. -/
def retrieveC1 : String → List (RuleEntry × ℚ) := fun _ => [(ruleC1, 9/10)]

/-- A concrete rule entry used by the witness of the retrieval-warning claim. -/
def ruleC4 : RuleEntry :=
  { rule_id := "R9", source := "NRC", regulation_text := "rt" }

/-- A concrete action used by the witness of the retrieval-warning claim. -/
def actionC4 : MaintenanceAction :=
  { id := "A2", description := "d", component := "c",
    proposed_action := "pa", timestamp := "ts" }

/-- A concrete retrieval with one rule of similarity 1/10, used by the witness
of the retrieval-warning claim. -/
def retrieveC4 : String → List (RuleEntry × ℚ) := fun _ => [(ruleC4, 1/10)]

/-- A concrete result whose consolidated report is present but empty, used by
the counterexample of the consolidated-report claim. -/
def emptyReportResult : ComplianceResult :=
  { action_id := "A1", overall_compliant := true, compliance_details := [],
    warning := none, report := none, consolidated_report := some "" }

/-! ## Helper lemmas -/

lemma severityOfProb_High_iff (p : ℚ) : severityOfProb p = .High ↔ 7/10 < p := by
  unfold severityOfProb RISK_THRESHOLDS_HIGH RISK_THRESHOLDS_MEDIUM
  split_ifs with h1 h2
  all_goals simp_all

lemma severityOfProb_Medium_iff (p : ℚ) :
    severityOfProb p = .Medium ↔ 3/10 < p ∧ p ≤ 7/10 := by
  unfold severityOfProb RISK_THRESHOLDS_HIGH RISK_THRESHOLDS_MEDIUM
  split_ifs with h1 h2
  · exact iff_of_false (by decide) (by rintro ⟨-, h⟩; linarith)
  · exact iff_of_true rfl ⟨h2, by linarith⟩
  · exact iff_of_false (by decide) (by rintro ⟨h, -⟩; exact h2 h)

lemma severityOfProb_Low_iff (p : ℚ) : severityOfProb p = .Low ↔ p ≤ 3/10 := by
  unfold severityOfProb RISK_THRESHOLDS_HIGH RISK_THRESHOLDS_MEDIUM
  split_ifs with h1 h2
  all_goals simp_all
  all_goals linarith

lemma getRiskColor_bg_eq (p : ℚ) :
    getRiskColor p .bg = severityBgColor (severityOfProb p) := by
  unfold getRiskColor severityOfProb severityBgColor
  split_ifs <;> rfl

lemma getRiskColor_text_eq (p : ℚ) :
    getRiskColor p .text = severityTextColor (severityOfProb p) := by
  unfold getRiskColor severityOfProb severityTextColor
  split_ifs <;> rfl

lemma getSeverityColor_red_iff (p : ℚ) :
    getSeverityColor p = "text-red-600" ↔ 9/10 < p := by
  unfold getSeverityColor
  split_ifs with h1 h2
  all_goals simp_all

lemma getSeverityColor_orange_iff (p : ℚ) :
    getSeverityColor p = "text-orange-500" ↔ 7/10 < p ∧ p ≤ 9/10 := by
  unfold getSeverityColor
  split_ifs with h1 h2
  · exact iff_of_false (by decide) (by rintro ⟨-, h⟩; linarith)
  · exact iff_of_true rfl ⟨h2, by linarith⟩
  · exact iff_of_false (by decide) (by rintro ⟨h, -⟩; exact h2 h)

lemma getSeverityColor_green_iff (p : ℚ) :
    getSeverityColor p = "text-green-600" ↔ p ≤ 7/10 := by
  unfold getSeverityColor
  split_ifs with h1 h2
  all_goals simp_all
  all_goals linarith

lemma lowRiskCount_eq (results : List PredictionResult) :
    lowRiskCount results =
      (results.filter (fun r => severityOfProb r.failure_probability = .Low)).length := by
  unfold lowRiskCount RISK_THRESHOLDS_MEDIUM
  congr 1
  apply List.filter_congr
  intro r _
  simp [severityOfProb_Low_iff]

lemma mediumRiskCount_eq (results : List PredictionResult) :
    mediumRiskCount results =
      (results.filter (fun r => severityOfProb r.failure_probability = .Medium)).length := by
  unfold mediumRiskCount RISK_THRESHOLDS_MEDIUM RISK_THRESHOLDS_HIGH
  congr 1
  apply List.filter_congr
  intro r _
  simp [severityOfProb_Medium_iff]

lemma highRiskCount_eq (results : List PredictionResult) :
    highRiskCount results =
      (results.filter (fun r => severityOfProb r.failure_probability = .High)).length := by
  unfold highRiskCount RISK_THRESHOLDS_HIGH
  congr 1
  apply List.filter_congr
  intro r _
  simp [severityOfProb_High_iff]

/-! ## Claim theorems -/

/-- C2 (counterexample): the presentation helper `getSeverityColor` does not
use the severity boundaries 0.7 and 0.3.  At p = 0.5 (the spec's Medium band)
it returns the same color as at p = 0.1 (the Low band), and it distinguishes
p = 0.8 from p = 0.95 although both lie in the High band. -/
theorem getSeverityColor_not_severity_boundaries :
    getSeverityColor (1/2) = getSeverityColor (1/10) ∧
      severityOfProb (1/2) ≠ severityOfProb (1/10) ∧
      getSeverityColor (4/5) ≠ getSeverityColor (19/20) ∧
      severityOfProb (4/5) = severityOfProb (19/20) := by
  refine ⟨?_, ?_, ?_, ?_⟩ <;>
    norm_num [getSeverityColor, severityOfProb, RISK_THRESHOLDS_HIGH,
      RISK_THRESHOLDS_MEDIUM] <;> decide

/-- C2 (amended): the severity assigned to a failure probability p is High
when p > 0.7, Medium when 0.3 < p ≤ 0.7, Low when p ≤ 0.3; the
predictive-maintenance component's risk classification (`getRiskColor` and
the `RiskDistributionCard` counts) uses exactly these boundaries; the
`getSeverityColor` helper in `utils.ts` instead uses the boundaries 0.9 and
0.7, so it does not share the severity boundaries. -/
theorem severity_thresholds_and_presentation (p : ℚ) (results : List PredictionResult) :
    (severityOfProb p = .High ↔ 7/10 < p) ∧
    (severityOfProb p = .Medium ↔ 3/10 < p ∧ p ≤ 7/10) ∧
    (severityOfProb p = .Low ↔ p ≤ 3/10) ∧
    getRiskColor p .bg = severityBgColor (severityOfProb p) ∧
    getRiskColor p .text = severityTextColor (severityOfProb p) ∧
    lowRiskCount results =
      (results.filter (fun r => severityOfProb r.failure_probability = .Low)).length ∧
    mediumRiskCount results =
      (results.filter (fun r => severityOfProb r.failure_probability = .Medium)).length ∧
    highRiskCount results =
      (results.filter (fun r => severityOfProb r.failure_probability = .High)).length ∧
    (getSeverityColor p = "text-red-600" ↔ 9/10 < p) ∧
    (getSeverityColor p = "text-orange-500" ↔ 7/10 < p ∧ p ≤ 9/10) ∧
    (getSeverityColor p = "text-green-600" ↔ p ≤ 7/10) :=
  ⟨severityOfProb_High_iff p, severityOfProb_Medium_iff p, severityOfProb_Low_iff p,
    getRiskColor_bg_eq p, getRiskColor_text_eq p,
    lowRiskCount_eq results, mediumRiskCount_eq results, highRiskCount_eq results,
    getSeverityColor_red_iff p, getSeverityColor_orange_iff p, getSeverityColor_green_iff p⟩

/-- C5: severity is monotone in failure probability: if p1 < p2 then the
severity assigned to p1 is at most the severity assigned to p2 under the
ordering Low < Medium < High. -/
theorem severityOfProb_monotone (p1 p2 : ℚ) (h : p1 < p2) :
    (severityOfProb p1).rank ≤ (severityOfProb p2).rank := by
  unfold severityOfProb RISK_THRESHOLDS_HIGH RISK_THRESHOLDS_MEDIUM
  split_ifs <;> simp [Severity.rank] <;> linarith

/-- Witness for C5 at p1 = 1/5 and p2 = 4/5. -/
theorem severityOfProb_monotone_witness :
    (1:ℚ)/5 < 4/5 ∧ (severityOfProb (1/5)).rank ≤ (severityOfProb (4/5)).rank :=
  ⟨by norm_num, severityOfProb_monotone (1/5) (4/5) (by norm_num)⟩

/-- C8: `getSeverityColor` returns the red class exactly when p > 0.9, the
orange class exactly when 0.7 < p ≤ 0.9, and the green class exactly when
p ≤ 0.7; consequently every probability in the Medium band (0.3, 0.7] is
rendered with the green (lowest-severity) color. -/
theorem getSeverityColor_bands (p : ℚ) :
    (getSeverityColor p = "text-red-600" ↔ 9/10 < p) ∧
    (getSeverityColor p = "text-orange-500" ↔ 7/10 < p ∧ p ≤ 9/10) ∧
    (getSeverityColor p = "text-green-600" ↔ p ≤ 7/10) ∧
    (3/10 < p ∧ p ≤ 7/10 → getSeverityColor p = "text-green-600") :=
  ⟨getSeverityColor_red_iff p, getSeverityColor_orange_iff p, getSeverityColor_green_iff p,
    fun hp => (getSeverityColor_green_iff p).mpr hp.2⟩

/-- Witness for C8 at the Medium-band probability p = 1/2. -/
theorem getSeverityColor_bands_witness :
    ((3:ℚ)/10 < 1/2 ∧ (1:ℚ)/2 ≤ 7/10) ∧ getSeverityColor (1/2) = "text-green-600" :=
  ⟨by norm_num, (getSeverityColor_bands (1/2)).2.2.2 (by norm_num)⟩

/-- C6: the Contributing Factors list is ranked by descending absolute value:
every displayed attribution has absolute value at least that of every
attribution displayed after it. -/
theorem topContributingFactors_ranked (r : PredictionResult) :
    (topContributingFactors r.shap_values).Pairwise attrDescAbs :=
  List.Pairwise.sublist (List.take_sublist 5 _)
    (List.sorted_insertionSort attrDescAbs r.shap_values)

/-- C10: the `instructions` field of a `MaintenanceSuggestion` is a single
string, and the rendered step list has one step per newline-separated segment
of that string, numbered from 1 in segment order. -/
theorem instructionSteps_spec (m : MaintenanceSuggestion) :
    (instructionSteps m).length = (m.instructions.splitOn "\n").length ∧
    ∀ i, (instructionSteps m)[i]? =
      ((m.instructions.splitOn "\n")[i]?).map (fun seg => (i + 1, seg)) := by
  constructor
  · simp [instructionSteps]
  · intro i
    simp [instructionSteps, List.getElem?_map, List.getElem?_enum, Function.comp_def]

/-- C9 (counterexample): a one-element result list whose first result carries
the empty string as its `consolidated_report` renders the fallback text, not
that (empty) report, so the panel does not render
`results[0].consolidated_report` for every list of length N ≥ 1. -/
theorem consolidatedReportDisplay_empty_string_fallback :
    emptyReportResult.consolidated_report = some "" ∧
    consolidatedReportDisplay [emptyReportResult] = "No report available" ∧
    "No report available" ≠ "" := by
  exact ⟨rfl, rfl, by decide⟩

/-- C9 (amended): the Consolidated Report panel renders
`results[0].consolidated_report` when it is present and non-empty; when the
list is empty, the field is absent, or the field is the empty string it
renders the fixed fallback text "No report available"; results at index 1 and
beyond never affect the display. -/
theorem consolidatedReportDisplay_spec :
    (consolidatedReportDisplay [] = "No report available") ∧
    (∀ (r : ComplianceResult) (rest : List ComplianceResult),
      consolidatedReportDisplay (r :: rest) =
        (match r.consolidated_report with
         | none => "No report available"
         | some s => if s = "" then "No report available" else s)) ∧
    (∀ (r : ComplianceResult) (rest rest' : List ComplianceResult),
      consolidatedReportDisplay (r :: rest) = consolidatedReportDisplay (r :: rest')) :=
  ⟨rfl, fun _ _ => rfl, fun _ _ _ => rfl⟩

/-- C7: every generated recommendation begins with the fixed symbol of its
class, and the presentation layer's prefix test recovers exactly the icon of
that class; in particular a compliant detail's recommendation maps to the
check icon and a non-compliant detail's to the warning icon. -/
theorem recommendation_prefix_classifies :
    (∀ (c : RecClass) (msg : String),
      iconForRecommendation (recommendationText c msg) = iconOfClass c) ∧
    (∀ d : ComplianceDetail,
      iconForRecommendation (recommendationFor d) =
        if d.compliant then RecIcon.checkCircle else RecIcon.alertTriangle) ∧
    (∀ details : List ComplianceDetail,
      (genRecommendations details).map iconForRecommendation =
        details.map (fun d =>
          if d.compliant then RecIcon.checkCircle else RecIcon.alertTriangle)) := by
  have hicon : ∀ (c : RecClass) (msg : String),
      iconForRecommendation (recommendationText c msg) = iconOfClass c := by
    intro c msg
    cases c <;>
      simp [recommendationText, iconOfClass, iconForRecommendation, strStartsWith,
        String.data_append, List.isPrefixOf]
  have hdet : ∀ d : ComplianceDetail,
      iconForRecommendation (recommendationFor d) =
        if d.compliant then RecIcon.checkCircle else RecIcon.alertTriangle := by
    intro d
    unfold recommendationFor
    by_cases hd : d.compliant
    · rw [if_pos hd, if_pos hd, hicon]
      rfl
    · rw [if_neg hd, if_neg hd, hicon]
      rfl
  refine ⟨hicon, hdet, fun details => ?_⟩
  unfold genRecommendations
  rw [List.map_map]
  exact List.map_congr_left (fun d _ => hdet d)

/-- C3: `check-compliance` over N actions returns exactly N results in
submission order (result i is the evaluation of action i), and `predict-file`
over N rows returns exactly N per-row results in row order; for N = 0 both
return the empty sequence rather than an error. -/
theorem batch_order_preservation (retrieve : String → List (RuleEntry × ℚ))
    (th mc : ℚ) (actions : List MaintenanceAction) :
    ((checkCompliance retrieve th mc actions).length = actions.length ∧
      (∀ i : Nat, (checkCompliance retrieve th mc actions)[i]? =
        (actions[i]?).map (evaluate retrieve th mc)) ∧
      checkCompliance retrieve th mc [] = []) ∧
    ∀ (Row : Type) (scoreRow : Row → PredictionResult) (rows : List Row),
      (predictFileBatch scoreRow rows).length = rows.length ∧
      (∀ i : Nat, (predictFileBatch scoreRow rows)[i]? = (rows[i]?).map scoreRow) ∧
      predictFileBatch scoreRow ([] : List Row) = [] := by
  refine ⟨⟨?_, fun i => ?_, rfl⟩, fun Row scoreRow rows => ⟨?_, fun i => ?_, rfl⟩⟩ <;>
    simp [checkCompliance, predictFileBatch, List.getElem?_map]

/-- C1: provided the minimum retrieval confidence does not exceed the
compliance threshold and at least one rule is retrieved, `overall_compliant`
is true exactly when every `ComplianceDetail` of the result is compliant; in
particular a single non-compliant detail forces `overall_compliant = false`. -/
theorem evaluate_overall_iff_all_compliant (retrieve : String → List (RuleEntry × ℚ))
    (th mc : ℚ) (a : MaintenanceAction)
    (hmc : mc ≤ th) (hne : retrieve (comparisonText a) ≠ []) :
    (evaluate retrieve th mc a).overall_compliant =
      (evaluate retrieve th mc a).compliance_details.all (fun d => d.compliant) := by
  obtain ⟨c, rest, hcs⟩ := List.exists_cons_of_ne_nil hne
  dsimp only [evaluate]
  split_ifs with hnc
  · rw [hcs] at hnc ⊢
    simp only [List.map_cons, List.all_cons, Bool.and_eq_true, decide_eq_true_eq] at hnc
    have hcompl : ¬ th ≤ c.2 := not_le.mpr (lt_of_lt_of_le hnc.1 hmc)
    simp [hcompl]
  · rfl

/-- Witness for C1 at a concrete action, a single retrieved rule with
similarity 9/10, compliance threshold 1/2 and minimum confidence 3/10. -/
theorem evaluate_overall_iff_all_compliant_witness :
    ((3:ℚ)/10 ≤ 1/2 ∧ retrieveC1 (comparisonText actionC1) ≠ []) ∧
    (evaluate retrieveC1 (1/2) (3/10) actionC1).overall_compliant =
      (evaluate retrieveC1 (1/2) (3/10) actionC1).compliance_details.all
        (fun d => d.compliant) :=
  ⟨⟨by norm_num, by simp [retrieveC1]⟩,
    evaluate_overall_iff_all_compliant _ _ _ _ (by norm_num) (by simp [retrieveC1])⟩

/-- C4: when no retrieved rule meets the minimum retrieval confidence, the
result's `warning` is set to the descriptive string "No closely matching
regulation found" and `overall_compliant` is false, not true by default. -/
theorem evaluate_warning_when_no_confident_match
    (retrieve : String → List (RuleEntry × ℚ)) (th mc : ℚ) (a : MaintenanceAction)
    (h : ∀ c ∈ retrieve (comparisonText a), c.2 < mc) :
    (evaluate retrieve th mc a).warning = some "No closely matching regulation found" ∧
      (evaluate retrieve th mc a).overall_compliant = false := by
  dsimp only [evaluate]
  split_ifs with hnc
  · exact ⟨rfl, rfl⟩
  · exfalso
    apply hnc
    simp only [List.all_eq_true, List.mem_map, decide_eq_true_eq]
    rintro d ⟨c, hc, rfl⟩
    exact h c hc

/-- Witness for C4 at a concrete action with one retrieved rule of similarity
1/10, below the minimum confidence 3/10. -/
theorem evaluate_warning_when_no_confident_match_witness :
    (∀ c ∈ retrieveC4 (comparisonText actionC4), c.2 < (3:ℚ)/10) ∧
    ((evaluate retrieveC4 (1/2) (3/10) actionC4).warning =
        some "No closely matching regulation found" ∧
      (evaluate retrieveC4 (1/2) (3/10) actionC4).overall_compliant = false) :=
  ⟨by intro c hc; simp [retrieveC4] at hc; rw [hc]; norm_num,
    evaluate_warning_when_no_confident_match _ _ _ _
      (by intro c hc; simp [retrieveC4] at hc; rw [hc]; norm_num)⟩

end Espada
